import Mathlib

/-!
Verification of the AURA agent kernel against its specification.

The definitions below are a shallow embedding of the Python sources:
`aurabackend/agent_tools/base_tool.py` (tool registry),
`aurabackend/mcp_server/context_manager.py` (context store),
`aurabackend/mcp_server/protocol_handler.py` (protocol router) and
`aurabackend/agent_tools/recursive_reasoner.py` (recursive reasoner).
Python dictionaries are modelled as insertion-ordered association lists,
Python strings as `String` (or `List Char` where character-level operations
such as `lower`/`strip`/`split` matter), wall-clock time as an explicit
parameter, and raised exceptions as explicit error values.
-/

namespace Aura

/-- Python `dict` with string keys: an insertion-ordered association list. -/
abbrev Dict (V : Type) : Type := List (String × V)

/-- Python `d.get(k)` / `d[k]`: value of the first binding of `k`, if any. -/
def dictGet {V : Type} : Dict V → String → Option V
  | [], _ => none
  | p :: rest, k => if p.1 = k then some p.2 else dictGet rest k

/-- Python `k in d`. -/
def dictMem {V : Type} : Dict V → String → Bool
  | [], _ => false
  | p :: rest, k => decide (p.1 = k) || dictMem rest k

/-- Python `d[k] = v`: overwrite an existing binding in place, else append. -/
def dictSet {V : Type} (d : Dict V) (k : String) (v : V) : Dict V :=
  if dictMem d k then d.map (fun p => if p.1 = k then (k, v) else p)
  else d ++ [(k, v)]

/-- Python `d.update(u)`: set each binding of `u` into `d`, in order. -/
def dictUpdate {V : Type} (d u : Dict V) : Dict V :=
  u.foldl (fun acc p => dictSet acc p.1 p.2) d

/-- Python `del d[k]`. -/
def dictDel {V : Type} : Dict V → String → Dict V
  | [], _ => []
  | p :: rest, k => if p.1 = k then dictDel rest k else p :: dictDel rest k

/-- Python `list(d.keys())`. -/
def dictKeys {V : Type} (d : Dict V) : List String :=
  d.map (fun p => p.1)

/-- JSON-like values held in payload / data dictionaries. -/
inductive Value : Type where
  | vnull : Value
  | vbool : Bool → Value
  | vint : Int → Value
  | vstr : String → Value
  | vlist : List Value → Value
  | vdict : List (String × Value) → Value

/-- A single-quote character, used inside message strings. -/
def sq : String := (Char.ofNat 39).toString

/-! ### Tool registry (`base_tool.py`) -/

/-- The `metadata` dictionary of a `ToolExecutionResult`.  The code only
ever stores one of these two shapes, or leaves the dictionary empty. -/
inductive ToolMeta : Type where
  | empty : ToolMeta
  | availableTools : List String → ToolMeta
  | toolName : String → ToolMeta

/-- `ToolExecutionResult` dataclass.  `timestamp` is the `datetime.now()`
value captured when the result is constructed, modelled as a `Nat`. -/
structure ToolExecutionResult where
  success : Bool
  data : Option Value
  error : Option String := none
  executionTimeMs : Option Int := none
  metadata : ToolMeta := ToolMeta.empty
  timestamp : Nat

/-- `AgentTool`: the abstract `execute` method of a subclass is modelled by
the `exec` field; a Python exception raised by `execute` is an
`Except.error` carrying `str(e)`. -/
structure AgentTool where
  name : String
  description : String
  version : String
  usageCount : Nat
  lastUsed : Option Nat
  exec : Dict Value → Except String ToolExecutionResult

/-- `AgentTool.run`: bump the usage counters, then execute, converting a
raised exception into a `success = false` result.  The two `datetime.now()`
calls are the explicit `startTime` and `endTime` parameters. -/
def AgentTool.run (tool : AgentTool) (args : Dict Value) (startTime endTime : Nat) :
    ToolExecutionResult × AgentTool :=
  let tool1 : AgentTool :=
    { tool with usageCount := tool.usageCount + 1, lastUsed := some startTime }
  match tool.exec args with
  | Except.ok r =>
      ({ r with executionTimeMs := some (((endTime : Int) - (startTime : Int)) * 1000) }, tool1)
  | Except.error e =>
      ({ success := false, data := none, error := some e,
         executionTimeMs := some (((endTime : Int) - (startTime : Int)) * 1000),
         metadata := ToolMeta.toolName tool.name, timestamp := endTime }, tool1)

/-- `ToolRegistry.tools`: name-keyed dictionary of registered tools. -/
abbrev ToolRegistry : Type := Dict AgentTool

/-- `ToolRegistry.get_tool_names`. -/
def getToolNames (reg : ToolRegistry) : List String :=
  dictKeys reg

/-- `ToolRegistry.execute_tool`: look the tool up by name; on a miss return
the distinguished not-found result, otherwise run the tool (whose updated
counters are stored back into the registry). -/
def executeTool (reg : ToolRegistry) (toolName : String) (args : Dict Value)
    (startTime endTime : Nat) : ToolExecutionResult × ToolRegistry :=
  match dictGet reg toolName with
  | none =>
      ({ success := false, data := none,
         error := some ("Tool " ++ sq ++ toolName ++ sq ++ " not found"),
         metadata := ToolMeta.availableTools (getToolNames reg),
         timestamp := startTime }, reg)
  | some tool =>
      let rt := tool.run args startTime endTime
      (rt.1, dictSet reg toolName rt.2)

/-! ### Context store (`context_manager.py`) -/

/-- `AgentContext` dataclass.  Timestamps are rationals (seconds);
`ttlSeconds` is Python `Optional[int]`. -/
structure AgentContext where
  agentId : String
  sessionId : String
  contextType : String
  contextData : Dict Value
  metadata : Dict Value
  createdAt : ℚ
  updatedAt : ℚ
  ttlSeconds : Option Int

/-- `DatabaseContext` dataclass. -/
structure DatabaseContext where
  connectionId : String
  databaseType : String
  schemaInfo : Dict Value
  availableTables : List String
  tableRelationships : Dict (List String)
  recentQueries : List String
  queryPatterns : Dict Nat

/-- `ContextManager` state. -/
structure ContextManager where
  contexts : Dict AgentContext
  databaseContexts : Dict DatabaseContext
  conversationHistory : Dict (List (Dict Value))

/-- The empty `ContextManager()`. -/
def emptyCM : ContextManager :=
  { contexts := [], databaseContexts := [], conversationHistory := [] }

/-- Context key `f"{agent_id}:{session_id}:{context_type}"`. -/
def contextKeyOf (agentId sessionId contextType : String) : String :=
  agentId ++ ":" ++ sessionId ++ ":" ++ contextType

/-- `ContextManager.create_context`; `now` is `datetime.now()`. -/
def createContext (cm : ContextManager) (agentId sessionId contextType : String)
    (contextData : Dict Value) (metadata : Dict Value) (ttlSeconds : Option Int)
    (now : ℚ) : String × ContextManager :=
  let key := contextKeyOf agentId sessionId contextType
  let ctx : AgentContext :=
    { agentId := agentId, sessionId := sessionId, contextType := contextType,
      contextData := contextData, metadata := metadata,
      createdAt := now, updatedAt := now, ttlSeconds := ttlSeconds }
  (key, { cm with contexts := dictSet cm.contexts key ctx })

/-- The lazy-expiry test exactly as the reads perform it.  The guard is the
Python truthiness test `if context.ttl_seconds:`, which is skipped both when
`ttl_seconds` is `None` and when it is `0`, so a zero TTL never counts as
expired. -/
def ttlExpired (ctx : AgentContext) (now : ℚ) : Bool :=
  match ctx.ttlSeconds with
  | none => false
  | some t => if t = 0 then false else decide (now - ctx.createdAt > (t : ℚ))

/-- `ContextManager.get_context`: lazy expiry check deletes an expired entry
and reports it as absent. -/
def getContext (cm : ContextManager) (key : String) (now : ℚ) :
    Option AgentContext × ContextManager :=
  match dictGet cm.contexts key with
  | none => (none, cm)
  | some ctx =>
      if ttlExpired ctx now then
        (none, { cm with contexts := dictDel cm.contexts key })
      else (some ctx, cm)

/-- `ContextManager.update_context`: read through `get_context`, then either
merge (`dict.update`) or replace the data wholesale, refreshing `updatedAt`. -/
def updateContext (cm : ContextManager) (key : String) (contextData : Dict Value)
    (merge : Bool) (now : ℚ) : Bool × ContextManager :=
  match getContext cm key now with
  | (none, cm1) => (false, cm1)
  | (some ctx, cm1) =>
      let newData := if merge then dictUpdate ctx.contextData contextData else contextData
      let ctx1 := { ctx with contextData := newData, updatedAt := now }
      (true, { cm1 with contexts := dictSet cm1.contexts key ctx1 })

/-- `ContextManager.delete_context`. -/
def deleteContext (cm : ContextManager) (key : String) : Bool × ContextManager :=
  if dictMem cm.contexts key then
    (true, { cm with contexts := dictDel cm.contexts key })
  else (false, cm)

/-- A `list_contexts` filter argument.  Python tests `if agent_id and ...`,
so an empty-string filter is falsy and matches everything. -/
def filterPasses (filt : Option String) (x : String) : Bool :=
  match filt with
  | none => true
  | some s => if s = "" then true else decide (x = s)

/-- `ContextManager.list_contexts`: every unexpired entry that passes the
optional agent / session / type filters, in storage order. -/
def listContexts (cm : ContextManager) (agentId sessionId contextType : Option String)
    (now : ℚ) : List AgentContext :=
  (cm.contexts.map (fun p => p.2)).filter (fun ctx =>
    !(ttlExpired ctx now) && filterPasses agentId ctx.agentId &&
      filterPasses sessionId ctx.sessionId && filterPasses contextType ctx.contextType)

/-- `ContextManager.create_database_context`. -/
def createDatabaseContext (cm : ContextManager) (connectionId databaseType : String)
    (schemaInfo : Dict Value) (availableTables : List String) : String × ContextManager :=
  let db : DatabaseContext :=
    { connectionId := connectionId, databaseType := databaseType,
      schemaInfo := schemaInfo, availableTables := availableTables,
      tableRelationships := [], recentQueries := [], queryPatterns := [] }
  (connectionId, { cm with databaseContexts := dictSet cm.databaseContexts connectionId db })

/-! ### Python string primitives used by the kernel

Character-level operations (`lower`, `upper`, `strip`, `split`) act on
`List Char`, the model of a Python `str` where its characters matter. -/

/-- A Python `str` viewed character by character. -/
abbrev PyStr : Type := List Char

/-- Characters of a string literal. -/
def pyOf (s : String) : PyStr := s.toList

/-- Python `s.lower()`. -/
def pyLower (s : PyStr) : PyStr := s.map Char.toLower

/-- Python `s.upper()`. -/
def pyUpper (s : PyStr) : PyStr := s.map Char.toUpper

/-- Python `s.strip()`: drop leading and trailing whitespace. -/
def pyStrip (s : PyStr) : PyStr :=
  ((s.dropWhile Char.isWhitespace).reverse.dropWhile Char.isWhitespace).reverse

/-- Worker for `pySplitWs`: `acc` holds the reversed current word. -/
def splitWsGo (acc : PyStr) : PyStr → List PyStr
  | [] => if acc.isEmpty then [] else [acc.reverse]
  | c :: rest =>
      if c.isWhitespace then
        if acc.isEmpty then splitWsGo [] rest else acc.reverse :: splitWsGo [] rest
      else splitWsGo (c :: acc) rest

/-- Python `s.split()` (no separator): maximal runs of non-whitespace. -/
def pySplitWs (s : PyStr) : List PyStr := splitWsGo [] s

/-- Occurrence of `sub` as a contiguous sublist of the second argument. -/
def isSubOf (sub : PyStr) : PyStr → Bool
  | [] => sub.isEmpty
  | c :: rest => List.isPrefixOf sub (c :: rest) || isSubOf sub rest

/-- Python `sub in s`: contiguous substring test. -/
def pyContains (s sub : PyStr) : Bool := isSubOf sub s

/-- Worker for `pySplitOn`, structurally recursive on a fuel bound of at
least `s.length`; each step either consumes one character or consumes the
(nonempty) separator, so the fuel never runs out on the real call. -/
def splitOnGo (sep : PyStr) : Nat → PyStr → List PyStr
  | 0, s => [s]
  | _ + 1, [] => [[]]
  | fuel + 1, c :: rest =>
      if List.isPrefixOf sep (c :: rest) then
        [] :: splitOnGo sep fuel ((c :: rest).drop sep.length)
      else
        match splitOnGo sep fuel rest with
        | [] => [[c]]
        | w :: ws => (c :: w) :: ws

/-- Python `s.split(sep)` for a nonempty separator `sep` (an empty separator
raises in Python; the code only splits on the literal `" and "`). -/
def pySplitOn (sep s : PyStr) : List PyStr :=
  if sep.isEmpty then [s] else splitOnGo sep s.length s

/-- `ContextManager.add_query_to_history`.  The first component is the
raised exception, if any: for a query with no tokens, Python evaluates
`query.strip().split()[0]` and raises `IndexError` — after the recent-query
buffer has already been appended to and trimmed, which is why the returned
state in the error case already holds the new buffer. -/
def addQueryToHistory (cm : ContextManager) (connectionId query : String) :
    Option String × ContextManager :=
  match dictGet cm.databaseContexts connectionId with
  | none => (none, cm)
  | some db =>
      let rq0 := db.recentQueries ++ [query]
      let rq := if rq0.length > 50 then rq0.drop 1 else rq0
      match pySplitWs (pyStrip (pyOf query)) with
      | [] =>
          (some ("IndexError: list index out of range"),
           { cm with databaseContexts :=
               dictSet cm.databaseContexts connectionId ({ db with recentQueries := rq }) })
      | w :: _ =>
          let queryType := String.mk (pyUpper w)
          let db1 : DatabaseContext :=
            { db with
              recentQueries := rq
              queryPatterns := dictSet db.queryPatterns queryType
                ((dictGet db.queryPatterns queryType).getD 0 + 1) }
          (none, { cm with databaseContexts := dictSet cm.databaseContexts connectionId db1 })

/-! ### Protocol router (`protocol_handler.py`) -/

/-- The closed `MessageType` enumeration. -/
inductive MsgType : Type where
  | contextRequest : MsgType
  | contextResponse : MsgType
  | contextUpdate : MsgType
  | toolCall : MsgType
  | toolResponse : MsgType
  | agentHandoff : MsgType
  | error : MsgType
deriving DecidableEq

/-- Python `str(message_type)` as interpolated into the no-handler error. -/
def msgTypeName : MsgType → String
  | MsgType.contextRequest => "MessageType.CONTEXT_REQUEST"
  | MsgType.contextResponse => "MessageType.CONTEXT_RESPONSE"
  | MsgType.contextUpdate => "MessageType.CONTEXT_UPDATE"
  | MsgType.toolCall => "MessageType.TOOL_CALL"
  | MsgType.toolResponse => "MessageType.TOOL_RESPONSE"
  | MsgType.agentHandoff => "MessageType.AGENT_HANDOFF"
  | MsgType.error => "MessageType.ERROR"

/-- `MCPMessage` pydantic model. -/
structure MCPMessage where
  messageId : String
  messageType : MsgType
  senderId : String
  recipientId : Option String
  sessionId : String
  payload : Dict Value
  metadata : Dict Value

/-- Fields of a valid `ToolCall(**payload)`: `tool_name` must be a string,
`tool_parameters` a dictionary if present, `requires_approval` a boolean if
present (default `False`); anything else raises a validation error. -/
def toolCallFields (payload : Dict Value) : Option (String × Bool) :=
  match dictGet payload ("tool_name"), dictGet payload ("tool_parameters"),
        dictGet payload ("requires_approval") with
  | some (Value.vstr n), none, none => some (n, false)
  | some (Value.vstr n), none, some (Value.vbool b) => some (n, b)
  | some (Value.vstr n), some (Value.vdict _), none => some (n, false)
  | some (Value.vstr n), some (Value.vdict _), some (Value.vbool b) => some (n, b)
  | _, _, _ => none

/-- A list of values that are all strings, as required for `context_keys`. -/
def strListOf : List Value → Option (List String)
  | [] => some []
  | Value.vstr s :: rest => (strListOf rest).map (fun l => s :: l)
  | _ :: _ => none

/-- Fields of a valid `AgentHandoff(**payload)`: `target_agent_id` and
`task_description` must be strings, `context_keys` a list of strings if
present (default `[]`). -/
def handoffFields (payload : Dict Value) :
    Option (String × String × List String) :=
  match dictGet payload ("target_agent_id"), dictGet payload ("task_description"),
        dictGet payload ("context_keys") with
  | some (Value.vstr t), some (Value.vstr d), none => some (t, d, [])
  | some (Value.vstr t), some (Value.vstr d), some (Value.vlist ks) =>
      (strListOf ks).map (fun l => (t, d, l))
  | _, _, _ => none

/-- `ProtocolHandler._handle_context_request`: validates the payload as a
`ContextRequest` (which can raise) and answers with a stub response. -/
def handleContextRequest (m : MCPMessage) : Except String (Dict Value) :=
  match dictGet m.payload ("context_type"), dictGet m.payload ("filters") with
  | some (Value.vstr ct), none =>
      Except.ok
        [(("message_type" : String), Value.vstr ("context_response")),
         (("context_type" : String), Value.vstr ct),
         (("filters_applied" : String), Value.vdict []),
         (("note" : String),
          Value.vstr ("Context retrieval to be implemented with ContextManager integration"))]
  | some (Value.vstr ct), some (Value.vdict fs) =>
      Except.ok
        [(("message_type" : String), Value.vstr ("context_response")),
         (("context_type" : String), Value.vstr ct),
         (("filters_applied" : String), Value.vdict fs),
         (("note" : String),
          Value.vstr ("Context retrieval to be implemented with ContextManager integration"))]
  | _, _ => Except.error ("validation error for ContextRequest")

/-- `ProtocolHandler._handle_context_update`: never raises. -/
def handleContextUpdate (m : MCPMessage) : Except String (Dict Value) :=
  Except.ok
    [(("message_type" : String), Value.vstr ("context_update_ack")),
     (("updated" : String), Value.vbool true),
     (("context_key" : String), (dictGet m.payload ("context_key")).getD Value.vnull)]

/-- `ProtocolHandler._handle_tool_call`: validates the payload as a
`ToolCall` (which can raise). -/
def handleToolCall (m : MCPMessage) : Except String (Dict Value) :=
  match toolCallFields m.payload with
  | some (toolName, requiresApproval) =>
      Except.ok
        [(("message_type" : String), Value.vstr ("tool_response")),
         (("tool_name" : String), Value.vstr toolName),
         (("execution_status" : String),
          Value.vstr (if requiresApproval then "queued" else "executing")),
         (("note" : String),
          Value.vstr ("Tool execution to be implemented with agent tool system"))]
  | none => Except.error ("validation error for ToolCall")

/-- `ProtocolHandler._handle_agent_handoff`: validates the payload as an
`AgentHandoff` (which can raise). -/
def handleAgentHandoff (m : MCPMessage) : Except String (Dict Value) :=
  match handoffFields m.payload with
  | some (target, _task, keys) =>
      Except.ok
        [(("message_type" : String), Value.vstr ("handoff_ack")),
         (("target_agent" : String), Value.vstr target),
         (("task_queued" : String), Value.vbool true),
         (("context_keys_transferred" : String), Value.vlist (keys.map Value.vstr))]
  | none => Except.error ("validation error for AgentHandoff")

/-- The handler table built in `ProtocolHandler.__init__` — a fixed map
holding entries for exactly four of the seven message types. -/
def messageHandlers (t : MsgType) : Option (MCPMessage → Except String (Dict Value)) :=
  match t with
  | MsgType.contextRequest => some handleContextRequest
  | MsgType.contextUpdate => some handleContextUpdate
  | MsgType.toolCall => some handleToolCall
  | MsgType.agentHandoff => some handleAgentHandoff
  | _ => none

/-- Mutable state of a `ProtocolHandler`. -/
structure ProtocolState where
  messageQueue : List MCPMessage
  processedMessages : List String

/-- A fresh `ProtocolHandler()`. -/
def emptyProtocolState : ProtocolState :=
  { messageQueue := [], processedMessages := [] }

/-- The dictionary returned by `route_message`. -/
structure RouteResult where
  success : Bool
  result : Option (Dict Value)
  error : Option String
  messageId : Option String

/-- `ProtocolHandler.route_message`: with no handler, fail without touching
the state; otherwise append the message to the queue first, then run the
handler, appending the message id to `processed_messages` only when the
handler returns normally. -/
def routeMessage (st : ProtocolState) (m : MCPMessage) : RouteResult × ProtocolState :=
  match messageHandlers m.messageType with
  | none =>
      ({ success := false, result := none,
         error := some ("No handler for message type: " ++ msgTypeName m.messageType),
         messageId := none }, st)
  | some handler =>
      let st1 : ProtocolState := { st with messageQueue := st.messageQueue ++ [m] }
      match handler m with
      | Except.ok r =>
          ({ success := true, result := some r, error := none, messageId := some m.messageId },
           { st1 with processedMessages := st1.processedMessages ++ [m.messageId] })
      | Except.error e =>
          ({ success := false, result := none, error := some e, messageId := some m.messageId },
           st1)

/-! ### Recursive reasoner (`recursive_reasoner.py`) -/

/-- `ReasoningStep` enumeration. -/
inductive RStep : Type where
  | analyze : RStep
  | decompose : RStep
  | solve : RStep
  | verify : RStep
  | synthesize : RStep
deriving DecidableEq

/-- `ReasoningNode` dataclass: a tree of reasoning steps.  Confidence is a
rational standing for the Python float. -/
inductive RNode : Type where
  | mk : RStep → PyStr → Option PyStr → ℚ → List RNode → Nat → RNode

def RNode.stepType : RNode → RStep
  | RNode.mk st _ _ _ _ _ => st

def RNode.question : RNode → PyStr
  | RNode.mk _ q _ _ _ _ => q

def RNode.answer : RNode → Option PyStr
  | RNode.mk _ _ a _ _ _ => a

def RNode.confidence : RNode → ℚ
  | RNode.mk _ _ _ c _ _ => c

def RNode.subQuestions : RNode → List RNode
  | RNode.mk _ _ _ _ subs _ => subs

def RNode.depth : RNode → Nat
  | RNode.mk _ _ _ _ _ d => d

/-- The shape of the `context` dictionary as the reasoner consumes it:
`context.get('schema', {})`, whose `tables` are dictionaries with optional
`name` and `columns` entries. -/
structure ColumnInfo where
  name : Option PyStr

structure TableInfo where
  name : Option PyStr
  columns : List ColumnInfo

structure RSchema where
  tables : List TableInfo

structure RCtx where
  schema : Option RSchema

/-- The empty reasoning context `{}`. -/
def emptyRCtx : RCtx := { schema := none }

/-- The `simple_keywords` list of `_is_simple_enough`. -/
def simpleKeywords : List PyStr :=
  [pyOf ("what is"), pyOf ("show"), pyOf ("list"), pyOf ("get"),
   pyOf ("find"), pyOf ("count")]

/-- `RecursiveReasoner._is_simple_enough`: fewer than 10 words, or any of
the simple keywords occurs in the lowered question. -/
def isSimpleEnough (question : PyStr) : Bool :=
  if (pySplitWs question).length < 10 then true
  else if simpleKeywords.any (fun kw => pyContains (pyLower question) kw) then true
  else false

/-- Patterns 2 to 4 of `_decompose_problem`, reached when the conjunction
split did not return early; `pl` is the lowered problem. -/
def decomposePatterns (pl : PyStr) : List PyStr :=
  (if pyContains pl (pyOf ("database")) || pyContains pl (pyOf ("query")) then
     if pyContains pl (pyOf ("join")) || pyContains pl (pyOf ("multiple tables")) then
       [pyOf ("Identify the tables involved"),
        pyOf ("Determine the join conditions"),
        pyOf ("Construct the SELECT statement")]
     else if pyContains pl (pyOf ("aggregate")) || pyContains pl (pyOf ("group by")) then
       [pyOf ("Identify the aggregation columns"),
        pyOf ("Determine the grouping criteria"),
        pyOf ("Apply the aggregation function")]
     else []
   else []) ++
  (if pyContains pl (pyOf ("analyze")) || pyContains pl (pyOf ("compare")) then
     [pyOf ("Extract the data"),
      pyOf ("Calculate relevant metrics"),
      pyOf ("Compare and interpret results")]
   else []) ++
  (if pyContains pl (pyOf ("where")) &&
      (pyContains pl (pyOf ("and")) || pyContains pl (pyOf ("or"))) then
     [pyOf ("Identify primary filter criteria"),
      pyOf ("Identify secondary filter criteria"),
      pyOf ("Combine filters logically")]
   else [])

/-- `RecursiveReasoner._decompose_problem`: the conjunction test looks at
the lowered problem but the split runs on the original string, and only a
split with more than one part returns early. -/
def decomposeProblem (problem : PyStr) (_ctx : RCtx) : List PyStr :=
  let pl := pyLower problem
  if pyContains pl (pyOf (" and ")) then
    if (pySplitOn (pyOf (" and ")) problem).length > 1 then
      (pySplitOn (pyOf (" and ")) problem).map pyStrip
    else decomposePatterns pl
  else decomposePatterns pl

/-- Python `", ".join` and friends. -/
def joinSep (sep : PyStr) : List PyStr → PyStr
  | [] => []
  | [x] => x
  | x :: xs => x ++ sep ++ joinSep sep xs

/-- `t.get('name', 'unknown')` on a table dictionary. -/
def tableName (t : TableInfo) : PyStr := t.name.getD (pyOf ("unknown"))

/-- `c.get('name', 'unknown')` on a column dictionary. -/
def colName (c : ColumnInfo) : PyStr := c.name.getD (pyOf ("unknown"))

/-- The tail of `_solve_directly` after the database-specific returns have
been passed over; `ql` is the lowered question. -/
def solveDirectlyTail (question ql : PyStr) : PyStr :=
  if pyContains ql (pyOf ("select")) || pyContains ql (pyOf ("query")) then
    pyOf ("Construct a SELECT query with appropriate columns and conditions")
  else if pyContains ql (pyOf ("join")) then
    pyOf ("Use JOIN clause to combine data from multiple tables")
  else if pyContains ql (pyOf ("group")) || pyContains ql (pyOf ("aggregate")) then
    pyOf ("Apply GROUP BY with appropriate aggregation function (SUM, COUNT, AVG, etc.)")
  else pyOf ("Solution for: ") ++ question

/-- `RecursiveReasoner._solve_directly`. -/
def solveDirectly (question : PyStr) (ctx : RCtx) : PyStr :=
  let ql := pyLower question
  if pyContains ql (pyOf ("database")) || pyContains ql (pyOf ("table")) then
    let tables := (ctx.schema.map RSchema.tables).getD []
    if (pyContains ql (pyOf ("identify")) && pyContains ql (pyOf ("tables")))
        && !tables.isEmpty then
      pyOf ("Tables involved: ") ++ joinSep (pyOf (", ")) ((tables.map tableName).take 5)
    else if pyContains ql (pyOf ("columns")) && !tables.isEmpty then
      pyOf ("Columns: ") ++
        joinSep (pyOf (", ")) (((tables.headD ⟨none, []⟩).columns.take 5).map colName)
    else solveDirectlyTail question ql
  else solveDirectlyTail question ql

/-- Decimal rendering of `i + 1` for the f-string numbering. -/
def natToPy (n : Nat) : PyStr := (Nat.repr n).toList

/-- Python truthiness of `sq.answer`: `None` and the empty string are falsy. -/
def answerTruthy : Option PyStr → Bool
  | none => false
  | some a => !a.isEmpty

/-- A single-quote character as a `PyStr`. -/
def sqP : PyStr := [Char.ofNat 39]

/-- `RecursiveReasoner._synthesize_answers`. -/
def synthesizeAnswers (node : RNode) : PyStr :=
  if node.subQuestions.isEmpty then
    match node.answer with
    | some a => if a.isEmpty then pyOf ("No answer available") else a
    | none => pyOf ("No answer available")
  else
    let subAnswers := node.subQuestions.enum.filterMap (fun p =>
      if answerTruthy p.2.answer then
        some (natToPy (p.1 + 1) ++ pyOf (". ") ++ p.2.answer.getD [])
      else none)
    pyOf ("To solve ") ++ sqP ++ node.question ++ sqP ++ pyOf (":") ++
      [Char.ofNat 10] ++ joinSep [Char.ofNat 10] subAnswers

/-- `RecursiveReasoner._calculate_confidence`. -/
def calculateConfidence (node : RNode) : ℚ :=
  if node.subQuestions.isEmpty then node.confidence
  else
    let subConfidences :=
      (node.subQuestions.map RNode.confidence).filter (fun c => decide (c > 0))
    if subConfidences.isEmpty then 0.5
    else (subConfidences.sum / (subConfidences.length : ℚ)) * 0.95

/-- `RecursiveReasoner._recursive_solve`.  The fuel argument is
`max_depth − node.depth`; the Python guard `node.depth >= max_depth` is
exactly `fuel = 0` for the calls the reasoner makes, and both base cases
solve directly with confidence `0.8`. -/
def recursiveSolve (ctx : RCtx) : Nat → RStep → PyStr → Nat → RNode
  | 0, st, q, depth =>
      RNode.mk st q (some (solveDirectly q ctx)) 0.8 [] depth
  | fuel + 1, st, q, depth =>
      if isSimpleEnough q then
        RNode.mk st q (some (solveDirectly q ctx)) 0.8 [] depth
      else
        let subProblems := decomposeProblem q ctx
        if subProblems.isEmpty then
          RNode.mk st q (some (solveDirectly q ctx)) 0.6 [] depth
        else
          let children := subProblems.map
            (fun sp => recursiveSolve ctx fuel RStep.solve sp (depth + 1))
          let node0 := RNode.mk st q none 0 children depth
          RNode.mk st q (some (synthesizeAnswers node0)) (calculateConfidence node0)
            children depth

mutual
/-- `RecursiveReasoner._count_steps`. -/
def countSteps : RNode → Nat
  | RNode.mk _ _ _ _ subs _ => 1 + countStepsList subs
def countStepsList : List RNode → Nat
  | [] => 0
  | n :: rest => countSteps n + countStepsList rest
end

mutual
/-- `RecursiveReasoner._get_max_depth`. -/
def getMaxDepth : RNode → Nat
  | RNode.mk _ _ _ _ subs d => if subs.isEmpty then d else getMaxDepthList subs
def getMaxDepthList : List RNode → Nat
  | [] => 0
  | n :: rest => max (getMaxDepth n) (getMaxDepthList rest)
end

/-- `RecursiveReasoner._extract_solution`: `node.answer or "Unable to
determine solution"` with Python truthiness. -/
def extractSolution (node : RNode) : PyStr :=
  match node.answer with
  | some a => if a.isEmpty then pyOf ("Unable to determine solution") else a
  | none => pyOf ("Unable to determine solution")

/-- The dictionary returned by `RecursiveReasoner.reason`; the reasoning
tree is kept as the root node itself. -/
structure ReasonResult where
  problem : PyStr
  solution : PyStr
  confidence : ℚ
  root : RNode
  stepsTaken : Nat
  maxDepthReached : Nat

/-- `RecursiveReasoner.reason` with an explicit `max_depth` (the history
bookkeeping on `self` has no effect on the returned value and is not
modelled). -/
def reason (problem : PyStr) (ctx : RCtx) (maxDepth : Nat) : ReasonResult :=
  let root := recursiveSolve ctx maxDepth RStep.analyze problem 0
  { problem := problem
    solution := extractSolution root
    confidence := root.confidence
    root := root
    stepsTaken := countSteps root
    maxDepthReached := getMaxDepth root }

/-! ### Concrete fixtures used by the witnesses and counterexamples -/

/-- A registered tool whose handler always raises. -/
def boomTool : AgentTool :=
  { name := "boom", description := "always fails", version := "1.0.0",
    usageCount := 0, lastUsed := none,
    exec := fun _ => Except.error ("division by zero") }

/-- State after `CreateContext("a1","s1","database",{"x":1}, ttl_seconds=0)`
at time 0. -/
def cmTtlZero : ContextManager :=
  (createContext emptyCM ("a1") ("s1") ("database")
    [(("x" : String), Value.vint 1)] [] (some 0) 0).2

/-- An entry with a one-second TTL created at time 0. -/
def ctxExp : AgentContext :=
  { agentId := "a1", sessionId := "s1", contextType := "task",
    contextData := [(("x" : String), Value.vint 1)], metadata := [],
    createdAt := 0, updatedAt := 0, ttlSeconds := some 1 }

def cmExp : ContextManager :=
  { emptyCM with contexts := [(("a1:s1:task" : String), ctxExp)] }

/-- A live entry (no TTL) with two data keys, for the update-merge witness. -/
def ctxW : AgentContext :=
  { agentId := "a1", sessionId := "s1", contextType := "task",
    contextData := [(("a" : String), Value.vint 1), (("b" : String), Value.vint 2)],
    metadata := [], createdAt := 0, updatedAt := 0, ttlSeconds := none }

def cmW : ContextManager :=
  { emptyCM with contexts := [(("a1:s1:task" : String), ctxW)] }

/-- An update payload overwriting `b` and adding `c`. -/
def payloadW : Dict Value :=
  [(("b" : String), Value.vint 9), (("c" : String), Value.vint 3)]

/-- A database context registered under connection id `c1`. -/
def dbW : DatabaseContext :=
  { connectionId := "c1", databaseType := "postgres", schemaInfo := [],
    availableTables := [], tableRelationships := [], recentQueries := [],
    queryPatterns := [] }

def cmDb : ContextManager :=
  { emptyCM with databaseContexts := [(("c1" : String), dbW)] }

/-- A `context_request` message with an empty payload: its handler raises a
validation error (`context_type` is a required field). -/
def rawMessage : MCPMessage :=
  { messageId := "m1", messageType := MsgType.contextRequest, senderId := "a",
    recipientId := none, sessionId := "s", payload := [], metadata := [] }

/-- A `context_update` message: its handler always returns normally. -/
def okMessage : MCPMessage :=
  { messageId := "m2", messageType := MsgType.contextUpdate, senderId := "a",
    recipientId := none, sessionId := "s", payload := [], metadata := [] }

/-- An `error` message: no handler is registered for its type. -/
def noHandlerMessage : MCPMessage :=
  { messageId := "m3", messageType := MsgType.error, senderId := "a",
    recipientId := none, sessionId := "s", payload := [], metadata := [] }

/-- A 19-word conjunction problem that is not simple enough to solve
directly and contains none of the keyword triggers. -/
def longProblem : PyStr :=
  pyOf ("alpha beta gamma delta epsilon zeta eta theta iota and kappa mu nu xi omicron pi rho sigma tau")

/-! ### Theorems -/

/-- Looking up the key just deleted yields nothing. -/
theorem dictGet_dictDel_self {V : Type} (d : Dict V) (k : String) :
    dictGet (dictDel d k) k = none := by
  induction d with
  | nil => rfl
  | cons p rest ih =>
      by_cases hp : p.1 = k <;> simp [dictDel, dictGet, hp, ih]

theorem dictKeys_cons {V : Type} (p : String × V) (rest : Dict V) :
    dictKeys (p :: rest) = p.1 :: dictKeys rest := rfl

/-- A key is absent exactly when `dictGet` misses. -/
theorem dictGet_eq_none_iff {V : Type} (d : Dict V) (k : String) :
    dictGet d k = none ↔ k ∉ dictKeys d := by
  induction d with
  | nil => simp [dictGet, dictKeys]
  | cons p rest ih =>
      rw [dictKeys_cons]
      by_cases hp : p.1 = k
      · simp [dictGet, hp]
      · have hp2 : ¬ k = p.1 := fun he => hp he.symm
        simp [dictGet, hp, ih, List.mem_cons, hp2]

/-- `dictMem` agrees with `dictGet`. -/
theorem dictMem_eq_false_iff {V : Type} (d : Dict V) (k : String) :
    dictMem d k = false ↔ dictGet d k = none := by
  induction d with
  | nil => simp [dictMem, dictGet]
  | cons p rest ih =>
      by_cases hp : p.1 = k <;> simp [dictMem, dictGet, hp, ih]

theorem dictGet_map_overwrite {V : Type} (d : Dict V) (k : String) (v : V) :
    dictGet (d.map (fun p => if p.1 = k then (k, v) else p)) k =
      if dictMem d k then some v else none := by
  induction d with
  | nil => simp [dictGet, dictMem]
  | cons p rest ih =>
      by_cases hp : p.1 = k <;> simp [dictGet, dictMem, hp, ih]

theorem dictGet_map_overwrite_ne {V : Type} (d : Dict V) (k k2 : String) (v : V)
    (h : k ≠ k2) :
    dictGet (d.map (fun p => if p.1 = k then (k, v) else p)) k2 = dictGet d k2 := by
  induction d with
  | nil => rfl
  | cons p rest ih =>
      by_cases hp : p.1 = k
      · have hp2 : ¬ p.1 = k2 := by rw [hp]; exact h
        simp [dictGet, hp, hp2, h, ih]
      · simp [dictGet, hp, ih]

theorem dictGet_append_single_ne {V : Type} (d : Dict V) (k k2 : String) (v : V)
    (h : k ≠ k2) :
    dictGet (d ++ [(k, v)]) k2 = dictGet d k2 := by
  induction d with
  | nil => simp [dictGet, h]
  | cons p rest ih =>
      by_cases hp : p.1 = k2 <;> simp [dictGet, hp, ih]

theorem dictGet_append_single_self {V : Type} (d : Dict V) (k : String) (v : V)
    (h : dictGet d k = none) :
    dictGet (d ++ [(k, v)]) k = some v := by
  induction d with
  | nil => simp [dictGet]
  | cons p rest ih =>
      by_cases hp : p.1 = k
      · simp [dictGet, hp] at h
      · simp [dictGet, hp] at h ⊢
        exact ih h

/-- Setting a key makes it present with the new value. -/
theorem dictGet_dictSet_self {V : Type} (d : Dict V) (k : String) (v : V) :
    dictGet (dictSet d k v) k = some v := by
  unfold dictSet
  by_cases hm : dictMem d k = true
  · simp [hm, dictGet_map_overwrite]
  · have hn : dictGet d k = none :=
      (dictMem_eq_false_iff d k).mp (by simpa using hm)
    simp [hm, dictGet_append_single_self d k v hn]

/-- Setting one key does not disturb another. -/
theorem dictGet_dictSet_ne {V : Type} (d : Dict V) (k k2 : String) (v : V)
    (h : k ≠ k2) :
    dictGet (dictSet d k v) k2 = dictGet d k2 := by
  unfold dictSet
  by_cases hm : dictMem d k = true <;>
    simp [hm, dictGet_map_overwrite_ne d k k2 v h, dictGet_append_single_ne d k k2 v h]

/-- A key absent from the update payload keeps its old value. -/
theorem dictGet_dictUpdate_of_none {V : Type} (u : Dict V) (d : Dict V) (k : String)
    (h : dictGet u k = none) :
    dictGet (dictUpdate d u) k = dictGet d k := by
  induction u generalizing d with
  | nil => rfl
  | cons p rest ih =>
      have hp : ¬ p.1 = k := by
        intro he; simp [dictGet, he] at h
      have hr : dictGet rest k = none := by simpa [dictGet, hp] using h
      show dictGet (dictUpdate (dictSet d p.1 p.2) rest) k = dictGet d k
      rw [ih (dictSet d p.1 p.2) hr, dictGet_dictSet_ne d p.1 k p.2 hp]

/-- A key present in a duplicate-free update payload ends at its payload
value. -/
theorem dictGet_dictUpdate_of_some {V : Type} (u : Dict V) (d : Dict V) (k : String)
    (v : V) (hnd : (dictKeys u).Nodup) (h : dictGet u k = some v) :
    dictGet (dictUpdate d u) k = some v := by
  induction u generalizing d with
  | nil => simp [dictGet] at h
  | cons p rest ih =>
      have hnd1 : p.1 ∉ dictKeys rest ∧ (dictKeys rest).Nodup := by
        rw [dictKeys_cons] at hnd; exact List.nodup_cons.mp hnd
      by_cases hp : p.1 = k
      · have hv : p.2 = v := by simpa [dictGet, hp] using h
        have hr : dictGet rest k = none :=
          (dictGet_eq_none_iff rest k).mpr (by rw [← hp]; exact hnd1.1)
        show dictGet (dictUpdate (dictSet d p.1 p.2) rest) k = some v
        rw [dictGet_dictUpdate_of_none rest (dictSet d p.1 p.2) k hr, hp,
          dictGet_dictSet_self, hv]
      · have hr : dictGet rest k = some v := by simpa [dictGet, hp] using h
        show dictGet (dictUpdate (dictSet d p.1 p.2) rest) k = some v
        exact ih (dictSet d p.1 p.2) hnd1.2 hr

/-- C6: `execute_tool` on an unregistered name returns `success = false`
with the distinguished not-found error, lists the currently registered tool
names in its metadata, and returns the registry unchanged. -/
theorem executeTool_not_found_spec (reg : ToolRegistry) (toolName : String)
    (args : Dict Value) (t1 t2 : Nat) (h : dictGet reg toolName = none) :
    (executeTool reg toolName args t1 t2).1.success = false ∧
    (executeTool reg toolName args t1 t2).1.error =
      some ("Tool " ++ sq ++ toolName ++ sq ++ " not found") ∧
    (executeTool reg toolName args t1 t2).1.metadata =
      ToolMeta.availableTools (getToolNames reg) ∧
    (executeTool reg toolName args t1 t2).2 = reg := by
  simp [executeTool, h]

/-- Witness for C6 at the empty registry and the name `missing`. -/
theorem executeTool_not_found_witness :
    (executeTool [] ("missing") [] 0 1).1.success = false ∧
    (executeTool [] ("missing") [] 0 1).1.error =
      some ("Tool " ++ sq ++ ("missing" : String) ++ sq ++ " not found") ∧
    (executeTool [] ("missing") [] 0 1).1.metadata =
      ToolMeta.availableTools (getToolNames []) ∧
    (executeTool [] ("missing") [] 0 1).2 = [] :=
  executeTool_not_found_spec [] ("missing") [] 0 1 rfl

/-- C7: a registered tool whose handler raises still has its usage counter
incremented and `last_used` set, and `run` converts the exception into a
`success = false` result carrying the exception message. -/
theorem run_on_raise_spec (tool : AgentTool) (args : Dict Value) (msg : String)
    (t1 t2 : Nat) (h : tool.exec args = Except.error msg) :
    (tool.run args t1 t2).1.success = false ∧
    (tool.run args t1 t2).1.error = some msg ∧
    (tool.run args t1 t2).2.usageCount = tool.usageCount + 1 ∧
    (tool.run args t1 t2).2.lastUsed = some t1 := by
  simp [AgentTool.run, h]

/-- Witness for C7 at a tool whose handler always raises. -/
theorem run_on_raise_witness :
    (boomTool.run [] 5 6).1.success = false ∧
    (boomTool.run [] 5 6).1.error = some ("division by zero") ∧
    (boomTool.run [] 5 6).2.usageCount = boomTool.usageCount + 1 ∧
    (boomTool.run [] 5 6).2.lastUsed = some 5 :=
  run_on_raise_spec boomTool [] ("division by zero") 5 6 rfl

/-- C3 counterexample: the handler table has no entry for the message type
`ContextResponse`, so it does not map every one of the seven types to a
handler. -/
theorem messageHandlers_missing_cex :
    messageHandlers MsgType.contextResponse = none := rfl

/-- C3 (amended): the handler table, a fixed map built at construction,
has exactly one handler for each of the four types ContextRequest,
ContextUpdate, ToolCall and AgentHandoff, and none for ContextResponse,
ToolResponse and Error. -/
theorem messageHandlers_exactly_four (t : MsgType) :
    (messageHandlers t).isSome = true ↔
      (t = MsgType.contextRequest ∨ t = MsgType.contextUpdate ∨
       t = MsgType.toolCall ∨ t = MsgType.agentHandoff) := by
  cases t <;> simp [messageHandlers]

/-- C1 counterexample: a `context_request` message with an empty payload
has a registered handler which raises a validation error; `route_message`
returns `success = false` and the processed set stays empty, so the id is
not recorded despite the claim that it is recorded regardless of outcome. -/
theorem routeMessage_raise_cex :
    (messageHandlers rawMessage.messageType).isSome = true ∧
    (routeMessage emptyProtocolState rawMessage).1.success = false ∧
    (routeMessage emptyProtocolState rawMessage).2.processedMessages = [] := by
  refine ⟨rfl, rfl, rfl⟩

/-- C1 (amended): for a message whose type has a registered handler, the
message id is appended to the processed set exactly when the handler
returns normally; when the handler raises, the result has
`success = false` and the processed set is unchanged. -/
theorem routeMessage_processed_spec (st : ProtocolState) (m : MCPMessage)
    (h : MCPMessage → Except String (Dict Value))
    (hh : messageHandlers m.messageType = some h) :
    (∀ r, h m = Except.ok r →
      (routeMessage st m).1.success = true ∧
      (routeMessage st m).2.processedMessages = st.processedMessages ++ [m.messageId]) ∧
    (∀ e, h m = Except.error e →
      (routeMessage st m).1.success = false ∧
      (routeMessage st m).2.processedMessages = st.processedMessages) := by
  constructor
  · intro r hr
    constructor <;> simp [routeMessage, hh, hr]
  · intro e he
    constructor <;> simp [routeMessage, hh, he]

/-- Witness for C1 (amended): a `context_update` message is processed
normally and its id is recorded; the raising `context_request` message is
not recorded. -/
theorem routeMessage_processed_witness :
    ((routeMessage emptyProtocolState okMessage).1.success = true ∧
     (routeMessage emptyProtocolState okMessage).2.processedMessages =
       emptyProtocolState.processedMessages ++ [okMessage.messageId]) ∧
    ((routeMessage emptyProtocolState rawMessage).1.success = false ∧
     (routeMessage emptyProtocolState rawMessage).2.processedMessages =
       emptyProtocolState.processedMessages) := by
  constructor
  · exact (routeMessage_processed_spec emptyProtocolState okMessage
      handleContextUpdate rfl).1 _ rfl
  · exact (routeMessage_processed_spec emptyProtocolState rawMessage
      handleContextRequest rfl).2 _ rfl

/-- C5: `route_message` for a type with no handler fails without appending
to the message log; for a type whose handler raises, the message is
appended to the log (before the handler ran) and the result has
`success = false`. -/
theorem routeMessage_log_spec (st : ProtocolState) (m : MCPMessage) :
    (messageHandlers m.messageType = none →
      (routeMessage st m).1.success = false ∧
      (routeMessage st m).2.messageQueue = st.messageQueue) ∧
    (∀ h e, messageHandlers m.messageType = some h → h m = Except.error e →
      (routeMessage st m).1.success = false ∧
      (routeMessage st m).2.messageQueue = st.messageQueue ++ [m]) := by
  constructor
  · intro hn
    constructor <;> simp [routeMessage, hn]
  · intro h e hh he
    constructor <;> simp [routeMessage, hh, he]

/-- Witness for C5: an `error`-typed message has no handler and leaves the
log alone; the raising `context_request` message is appended. -/
theorem routeMessage_log_witness :
    ((routeMessage emptyProtocolState noHandlerMessage).1.success = false ∧
     (routeMessage emptyProtocolState noHandlerMessage).2.messageQueue =
       emptyProtocolState.messageQueue) ∧
    ((routeMessage emptyProtocolState rawMessage).1.success = false ∧
     (routeMessage emptyProtocolState rawMessage).2.messageQueue =
       emptyProtocolState.messageQueue ++ [rawMessage]) := by
  constructor
  · exact (routeMessage_log_spec emptyProtocolState noHandlerMessage).1 rfl
  · exact (routeMessage_log_spec emptyProtocolState rawMessage).2
      handleContextRequest _ rfl rfl

/-- C2 counterexample: the entry created with `ttl_seconds = 0` is still
returned by `get_context` five seconds later, because the Python truthiness
guard `if context.ttl_seconds:` skips the expiry check when the TTL is 0 —
the claimed NotFound after any non-zero delay does not happen. -/
theorem getContext_ttl_zero_cex :
    ((getContext cmTtlZero (contextKeyOf ("a1") ("s1") ("database")) 5).1).isSome = true := by
  decide

/-- C2 (amended): for an entry whose TTL is set and non-zero, once
`now - createdAt > ttlSeconds` holds, `get_context` returns NotFound and
deletes the entry; and `list_contexts` never includes an expired entry.
An entry with `ttlSeconds = 0` never expires. -/
theorem getContext_expiry_spec (cm : ContextManager) (key : String)
    (ctx : AgentContext) (t : Int) (now : ℚ)
    (hget : dictGet cm.contexts key = some ctx)
    (httl : ctx.ttlSeconds = some t) (hnz : t ≠ 0)
    (hexp : now - ctx.createdAt > (t : ℚ)) :
    (getContext cm key now).1 = none ∧
    dictGet ((getContext cm key now).2).contexts key = none ∧
    (∀ (a s k : Option String) (d : AgentContext),
      d ∈ listContexts cm a s k now → ttlExpired d now = false) := by
  have hex : ttlExpired ctx now = true := by
    simp [ttlExpired, httl, hnz, hexp]
  refine ⟨?_, ?_, ?_⟩
  · simp [getContext, hget, hex]
  · simp [getContext, hget, hex, dictGet_dictDel_self]
  · intro a s k d hd
    have hb := (List.mem_filter.mp hd).2
    simp only [Bool.and_eq_true, Bool.not_eq_true'] at hb
    exact hb.1.1.1

/-- Witness for C2 (amended) at an entry with TTL 1 read at time 5. -/
theorem getContext_expiry_witness :
    (getContext cmExp ("a1:s1:task") 5).1 = none ∧
    dictGet ((getContext cmExp ("a1:s1:task") 5).2).contexts ("a1:s1:task") = none := by
  have h := getContext_expiry_spec cmExp ("a1:s1:task") ctxExp 1 5 rfl rfl
    (by decide) (by norm_num [ctxExp])
  exact ⟨h.1, h.2.1⟩

/-- C8: on an existing unexpired entry, `update_context` with `merge = true`
returns true and leaves every data key absent from the payload unchanged
while payload keys take their payload value; with `merge = false` it
replaces the data wholesale with the payload; and it returns false when the
entry is absent or expired. -/
theorem updateContext_merge_spec (cm : ContextManager) (key : String)
    (payload : Dict Value) (now : ℚ) :
    (∀ ctx, dictGet cm.contexts key = some ctx → ttlExpired ctx now = false →
      (updateContext cm key payload true now).1 = true ∧
      (updateContext cm key payload false now).1 = true ∧
      (∃ ctx1,
        dictGet ((updateContext cm key payload true now).2).contexts key = some ctx1 ∧
        (∀ k2, dictGet payload k2 = none →
          dictGet ctx1.contextData k2 = dictGet ctx.contextData k2) ∧
        ((dictKeys payload).Nodup → ∀ k2 v, dictGet payload k2 = some v →
          dictGet ctx1.contextData k2 = some v)) ∧
      (∃ ctx2,
        dictGet ((updateContext cm key payload false now).2).contexts key = some ctx2 ∧
        ctx2.contextData = payload)) ∧
    (dictGet cm.contexts key = none →
      (updateContext cm key payload true now).1 = false ∧
      (updateContext cm key payload false now).1 = false) ∧
    (∀ ctx, dictGet cm.contexts key = some ctx → ttlExpired ctx now = true →
      (updateContext cm key payload true now).1 = false ∧
      (updateContext cm key payload false now).1 = false) := by
  refine ⟨?_, ?_, ?_⟩
  · intro ctx hget hal
    have hg : getContext cm key now = (some ctx, cm) := by
      simp [getContext, hget, hal]
    refine ⟨?_, ?_, ?_, ?_⟩
    · simp [updateContext, hg]
    · simp [updateContext, hg]
    · refine ⟨{ ctx with
          contextData := dictUpdate ctx.contextData payload
          updatedAt := now }, ?_, ?_, ?_⟩
      · simp [updateContext, hg, dictGet_dictSet_self]
      · intro k2 hk2
        exact dictGet_dictUpdate_of_none payload ctx.contextData k2 hk2
      · intro hnd k2 v hk2
        exact dictGet_dictUpdate_of_some payload ctx.contextData k2 v hnd hk2
    · refine ⟨{ ctx with contextData := payload, updatedAt := now }, ?_, rfl⟩
      simp [updateContext, hg, dictGet_dictSet_self]
  · intro hnone
    have hg : getContext cm key now = (none, cm) := by
      simp [getContext, hnone]
    constructor <;> simp [updateContext, hg]
  · intro ctx hget hex
    have hg : getContext cm key now =
        (none, { cm with contexts := dictDel cm.contexts key }) := by
      simp [getContext, hget, hex]
    constructor <;> simp [updateContext, hg]

/-- Witness for C8 at a two-key entry and a payload overwriting one key and
adding another. -/
theorem updateContext_merge_witness :
    (updateContext cmW ("a1:s1:task") payloadW true 1).1 = true ∧
    (updateContext cmW ("a1:s1:task") payloadW false 1).1 = true := by
  have h := (updateContext_merge_spec cmW ("a1:s1:task") payloadW 1).1 ctxW rfl rfl
  exact ⟨h.1, h.2.1⟩

/-- C10 counterexample: with a database context registered, adding the
empty query raises `IndexError` out of `add_query_to_history` (Python
evaluates `"".strip().split()[0]`), contradicting the claim that any query
string is handled without an uncaught fault. -/
theorem addQuery_empty_cex :
    (addQueryToHistory cmDb ("c1") ("")).1 =
      some ("IndexError: list index out of range") ∧
    (addQueryToHistory cmDb ("c1") ("   ")).1 =
      some ("IndexError: list index out of range") := by
  exact ⟨rfl, rfl⟩

/-- C10 (amended): for a query with at least one whitespace-delimited
token, `add_query_to_history` completes without raising, keeps the
recent-query buffer within its 50-entry capacity (assuming it was within
capacity before), and increments the histogram entry for the first token
upper-cased; a query with no tokens raises `IndexError`. -/
theorem addQuery_spec (cm : ContextManager) (conn query : String)
    (db : DatabaseContext) (w : PyStr) (ws : List PyStr)
    (hdb : dictGet cm.databaseContexts conn = some db)
    (hcap : db.recentQueries.length ≤ 50)
    (hsplit : pySplitWs (pyStrip (pyOf query)) = w :: ws) :
    (addQueryToHistory cm conn query).1 = none ∧
    (∃ db1,
      dictGet ((addQueryToHistory cm conn query).2).databaseContexts conn = some db1 ∧
      db1.recentQueries.length ≤ 50 ∧
      dictGet db1.queryPatterns (String.mk (pyUpper w)) =
        some ((dictGet db.queryPatterns (String.mk (pyUpper w))).getD 0 + 1)) := by
  have hlen : (if (db.recentQueries ++ [query]).length > 50 then
      (db.recentQueries ++ [query]).drop 1 else db.recentQueries ++ [query]).length ≤ 50 := by
    by_cases hc : (db.recentQueries ++ [query]).length > 50
    · rw [if_pos hc, List.length_drop, List.length_append]
      simp
      omega
    · rw [if_neg hc]
      rw [List.length_append] at hc
      simp at hc ⊢
      omega
  refine ⟨?_, ⟨{ db with
      recentQueries := if (db.recentQueries ++ [query]).length > 50 then
        (db.recentQueries ++ [query]).drop 1 else db.recentQueries ++ [query]
      queryPatterns := dictSet db.queryPatterns (String.mk (pyUpper w))
        ((dictGet db.queryPatterns (String.mk (pyUpper w))).getD 0 + 1) }, ?_, ?_, ?_⟩⟩
  · simp [addQueryToHistory, hdb, hsplit]
  · simp only [addQueryToHistory, hdb, hsplit]
    exact dictGet_dictSet_self cm.databaseContexts conn _
  · simpa using hlen
  · exact dictGet_dictSet_self db.queryPatterns (String.mk (pyUpper w)) _

/-- Witness for C10 (amended) at the query `select 1`. -/
theorem addQuery_witness :
    (addQueryToHistory cmDb ("c1") ("select 1")).1 = none :=
  (addQuery_spec cmDb ("c1") ("select 1") dbW (pyOf ("select")) [pyOf ("1")]
    rfl (by decide) (by decide)).1

/-- C9: `reason` with `max_depth = 0` always returns a single-node tree
(the root has no children), `steps_taken = 1`, and a confidence of `0.8`
(which satisfies the claimed disjunction of `0.8` or `0.6`). -/
theorem reason_maxDepth_zero_spec (problem : PyStr) (ctx : RCtx) :
    (reason problem ctx 0).root.subQuestions = [] ∧
    (reason problem ctx 0).stepsTaken = 1 ∧
    ((reason problem ctx 0).confidence = 0.8 ∨ (reason problem ctx 0).confidence = 0.6) := by
  refine ⟨?_, ?_, Or.inl ?_⟩ <;>
    simp [reason, recursiveSolve, countSteps, countStepsList, RNode.subQuestions,
      RNode.confidence]

/-- C4 counterexample: `"a and b"` does contain the conjunction keyword,
yet `reason("a and b", {}, 3)` returns a root with no children at all
(3 words < 10 makes `_is_simple_enough` fire before decomposition), so the
claimed at-least-2 sub-questions do not appear. -/
theorem reason_a_and_b_cex :
    pyContains (pyLower (pyOf ("a and b"))) (pyOf (" and ")) = true ∧
    ((reason (pyOf ("a and b")) emptyRCtx 3).root.subQuestions).length = 0 := by
  decide

/-- C4 (amended): `"a and b"` is simple enough (3 words < 10) and is solved
directly with no children; conjunction decomposition applies only to a
problem that is not simple enough, such as the 19-word `longProblem`, for
which `reason` with `max_depth = 3` produces one child per conjunct (here
2) and a synthesized root answer containing each sub-answer. -/
theorem reason_conjunction_spec :
    ((reason (pyOf ("a and b")) emptyRCtx 3).root.subQuestions).length = 0 ∧
    isSimpleEnough (pyOf ("a and b")) = true ∧
    isSimpleEnough longProblem = false ∧
    pyContains (pyLower longProblem) (pyOf (" and ")) = true ∧
    ((reason longProblem emptyRCtx 3).root.subQuestions).length = 2 ∧
    ((reason longProblem emptyRCtx 3).root.subQuestions).all
      (fun c => isSubOf (c.answer.getD [])
        ((reason longProblem emptyRCtx 3).root.answer.getD [])) = true := by
  decide
